import Mathlib

/-!
Verification development for the CHECK_PLEASE backend.

Each Python function relevant to the checked claims is shallowly embedded as
an executable Lean definition, translated line by line from the source files
under `backend/`.  Python strings are Lean `String`s, Python lists are Lean
`List`s, and the `re` regular-expression calls are interpreted by a small
backtracking matcher (`mmatch`) over an explicit pattern syntax `RX` that
mirrors the concrete regexes appearing in the source.
-/

namespace CheckPlease

/-! ## Python string primitives -/

/-- Python `str.lower()` (ASCII case folding, which is all the source uses). -/
def pyLower (s : String) : String := String.mk (s.toList.map Char.toLower)

/-- Python `str.strip()`: remove leading and trailing whitespace. -/
def pyStrip (s : String) : String :=
  String.mk (((s.toList.dropWhile Char.isWhitespace).reverse.dropWhile Char.isWhitespace).reverse)

/-- Occurrence of `needle` at some position of `hay` (chars). -/
def listContains : List Char → List Char → Bool
  | hay, needle =>
    if needle.isPrefixOf hay then true
    else
      match hay with
      | [] => false
      | _ :: t => listContains t needle

/-- Python `needle in hay` substring test. -/
def strContains (hay needle : String) : Bool :=
  listContains hay.toList needle.toList

/-- Python `str.startswith(pre)`. -/
def pyStartsWith (s pre : String) : Bool :=
  pre.toList.isPrefixOf s.toList

/-- Helper for `pySplitWS`: split a character list on whitespace runs. -/
def splitWSAux : List Char → List Char → List String
  | [], acc => if acc.isEmpty then [] else [String.mk acc.reverse]
  | c :: cs, acc =>
    if c.isWhitespace then
      if acc.isEmpty then splitWSAux cs [] else String.mk acc.reverse :: splitWSAux cs []
    else splitWSAux cs (c :: acc)

/-- Python `str.split()` with no argument: split on whitespace runs, dropping empties. -/
def pySplitWS (s : String) : List String := splitWSAux s.toList []

/-- Helper for `splitLines`: cut a char list at every newline. -/
def splitLinesAux : List Char → List Char → List String
  | [], acc => [String.mk acc.reverse]
  | c :: cs, acc =>
    if c = '\n' then String.mk acc.reverse :: splitLinesAux cs []
    else splitLinesAux cs (c :: acc)

/-- Python `text.split('\n')`. -/
def splitLines (s : String) : List String := splitLinesAux s.toList []

/-- Python `'\n'.join(lines)`. -/
def joinLines (ls : List String) : String := String.intercalate "\n" ls

/-- Python `l[-n:]`: the last `n` elements of a list. -/
def takeLast (l : List α) (n : Nat) : List α := l.drop (l.length - n)

/-! ## A small regex interpreter

The source uses `re.search`, `re.match`, `re.findall` and `re.sub` on a
handful of concrete patterns.  `RX` is the pattern syntax needed for those
patterns; `mmatch` is a fuel-indexed CPS backtracking matcher with Python's
preference order (leftmost start, left-biased alternation, greedy
quantifiers).  Each source pattern is spelled out below as an `RX` value. -/

inductive RX where
  | eps
  | sym (f : Char → Bool)
  | seq (a b : RX)
  | alt (a b : RX)
  | star (a : RX)
  | plus (a : RX)
  | opt (a : RX)
  | grp (a : RX)
  | wb

/-- Size of a pattern, used to compute a sufficient fuel bound. -/
def rxSize : RX → Nat
  | .eps => 1
  | .sym _ => 1
  | .wb => 1
  | .seq a b => rxSize a + rxSize b + 1
  | .alt a b => rxSize a + rxSize b + 1
  | .star a => rxSize a + 1
  | .plus a => rxSize a + 2
  | .opt a => rxSize a + 1
  | .grp a => rxSize a + 1

/-- Python `\w` (ASCII reading): letters, digits, underscore. -/
def isWordChar (c : Char) : Bool := c.isAlphanum || c == '_'

/-- Python `\b`: boundary between a word char and a non-word char (or an edge). -/
def atBoundary (prev : Option Char) (s : List Char) : Bool :=
  let a := match prev with | some c => isWordChar c | none => false
  let b := match s with | c :: _ => isWordChar c | [] => false
  a != b

/-- Match result: (text of the capture group, last consumed char, rest of input). -/
abbrev MatchRes := Option (List Char × Option Char × List Char)

/-- Backtracking matcher.  `p` is the character just before the current
position (for `\b`), `k` the continuation receiving the position after the
pattern.  The capture group (`grp`) records the characters it consumed. -/
def mmatch : Nat → RX → Option Char → List Char →
    (Option Char → List Char → MatchRes) → MatchRes
  | 0, _, _, _, _ => none
  | _ + 1, .eps, p, s, k => k p s
  | _ + 1, .sym f, _, s, k =>
    match s with
    | [] => none
    | c :: rest => if f c then k (some c) rest else none
  | n + 1, .seq a b, p, s, k =>
    mmatch n a p s (fun p' s' => mmatch n b p' s' k)
  | n + 1, .alt a b, p, s, k =>
    match mmatch n a p s k with
    | some r => some r
    | none => mmatch n b p s k
  | n + 1, .star a, p, s, k =>
    match mmatch n a p s
        (fun p' s' => if s'.length < s.length then mmatch n (.star a) p' s' k else none) with
    | some r => some r
    | none => k p s
  | n + 1, .plus a, p, s, k =>
    mmatch n a p s (fun p' s' => mmatch n (.star a) p' s' k)
  | n + 1, .opt a, p, s, k =>
    match mmatch n a p s k with
    | some r => some r
    | none => k p s
  | n + 1, .grp a, p, s, k =>
    mmatch n a p s (fun p' s' =>
      match k p' s' with
      | some (_, pe, se) => some (s.take (s.length - s'.length), pe, se)
      | none => none)
  | _ + 1, .wb, p, s, k => if atBoundary p s then k p s else none

/-- Fuel that is always sufficient for `mmatch` on input `s`. -/
def rxFuel (r : RX) (s : List Char) : Nat := s.length + rxSize r + 16

/-- Try a match starting at the current position, else advance one char
(the scan performed by Python `re.search`). -/
def searchAux (r : RX) : Option Char → List Char → MatchRes
  | p, s =>
    match mmatch (rxFuel r s) r p s (fun pe se => some ([], pe, se)) with
    | some res => some res
    | none =>
      match s with
      | [] => none
      | c :: rest => searchAux r (some c) rest

/-- Python `re.search(pattern, s) is not None`. -/
def reSearch (r : RX) (s : String) : Bool := (searchAux r none s.toList).isSome

/-- Python `re.search(...)`, returning the capture group of the first match. -/
def reSearchGroup (r : RX) (s : String) : Option String :=
  (searchAux r none s.toList).map (fun x => String.mk x.1)

/-- Python `re.match(pattern, s) is not None`: anchored at the start. -/
def reMatchStart (r : RX) (s : String) : Bool :=
  (mmatch (rxFuel r s.toList) r none s.toList (fun pe se => some ([], pe, se))).isSome

/-- Scanning loop of Python `re.findall`, collecting capture groups of
non-overlapping matches left to right. -/
def findAllAux (r : RX) : Nat → Option Char → List Char → List String
  | 0, _, _ => []
  | fuel + 1, p, s =>
    match mmatch (rxFuel r s) r p s (fun pe se => some ([], pe, se)) with
    | some (cap, pe, rest) =>
      if rest.length < s.length then
        String.mk cap :: findAllAux r fuel pe rest
      else
        -- zero-width match: emit and advance one char (cannot happen for the
        -- patterns below, which all consume at least one character)
        match s with
        | [] => [String.mk cap]
        | c :: t => String.mk cap :: findAllAux r fuel (some c) t
    | none =>
      match s with
      | [] => []
      | c :: rest => findAllAux r fuel (some c) rest

/-- Python `re.findall(pattern, s)` for a pattern with one capture group. -/
def reFindAll (r : RX) (s : String) : List String :=
  findAllAux r (s.toList.length + 1) none s.toList

/-! ### Pattern building blocks -/

/-- A literal character. -/
def rxChar (c : Char) : RX := .sym (fun x => x == c)

/-- A literal character under `re.IGNORECASE`. -/
def rxCharCI (c : Char) : RX := .sym (fun x => x.toLower == c.toLower)

/-- A literal string. -/
def rxLit (s : String) : RX :=
  s.toList.foldr (fun c acc => RX.seq (rxChar c) acc) RX.eps

/-- A literal string under `re.IGNORECASE`. -/
def rxLitCI (s : String) : RX :=
  s.toList.foldr (fun c acc => RX.seq (rxCharCI c) acc) RX.eps

/-- Alternation of a list of patterns (left-biased, like `a|b|c`). -/
def rxAlts : List RX → RX
  | [] => .eps
  | [r] => r
  | r :: rs => .alt r (rxAlts rs)

/-- `[A-Z]`. -/
def rxUpper : RX := .sym (fun c => 'A' ≤ c && c ≤ 'Z')

/-- `[a-z]`. -/
def rxLowerC : RX := .sym (fun c => 'a' ≤ c && c ≤ 'z')

/-- `[A-Z]` under `re.IGNORECASE` (matches any ASCII letter). -/
def rxUpperCI : RX := .sym (fun c => ('A' ≤ c && c ≤ 'Z') || ('a' ≤ c && c ≤ 'z'))

/-- `\s`. -/
def rxWS : RX := .sym Char.isWhitespace

/-- `\d`. -/
def rxDigit : RX := .sym Char.isDigit

/-- `.` (any char but newline; no `re.DOTALL` in the embedded calls). -/
def rxAny : RX := .sym (fun c => c != '\n')

/-- `\s+`. -/
def rxWSp : RX := .plus rxWS

/-- `\s*`. -/
def rxWSs : RX := .star rxWS

/-- `[A-Z][a-z]+`: one capitalized word. -/
def rxCapWord : RX := .seq rxUpper (.plus rxLowerC)

/-! ## `backend/agent_core_simple.py` — `SimpleRAG`

The three-tier query classifier `_detect_query_type`, the line-level
personal-information filter `_filter_personal_info`, and the exact-line
dedup `_deduplicate_gentle`. -/

/-- The common shape `\bX\s+(all|of)?\s*(the)?\s*Y` of the roster patterns. -/
def simpleListShape (word tail : RX) : RX :=
  .seq .wb (.seq word (.seq rxWSp
    (.seq (.opt (.grp (rxAlts [rxLit "all", rxLit "of"])))
      (.seq rxWSs (.seq (.opt (.grp (rxLit "the"))) (.seq rxWSs tail))))))

/-- `r'\blist\s+(all|of)?\s*(the)?\s*lecturers?'` and the three variants,
plus the give/show/siapa/daftar patterns (`agent_core_simple.py:99-109`). -/
def simple_list_patterns : List RX :=
  [ simpleListShape (rxLit "list") (.seq (rxLit "lecturer") (.opt (rxChar 's'))),
    simpleListShape (rxLit "list") (.seq (rxLit "professor") (.opt (rxChar 's'))),
    simpleListShape (rxLit "list") (rxLit "faculty"),
    simpleListShape (rxLit "list") (rxLit "staff"),
    simpleListShape (rxLit "list") (rxLit "dosen"),
    -- r'\bgive\s+me\s+.*\blist\b.*\blecturers?'
    .seq .wb (.seq (rxLit "give") (.seq rxWSp (.seq (rxLit "me") (.seq rxWSp
      (.seq (.star rxAny) (.seq .wb (.seq (rxLit "list") (.seq .wb
        (.seq (.star rxAny) (.seq .wb (.seq (rxLit "lecturer") (.opt (rxChar 's'))))))))))))),
    -- r'\bshow\s+me\s+.*\blecturers?'
    .seq .wb (.seq (rxLit "show") (.seq rxWSp (.seq (rxLit "me") (.seq rxWSp
      (.seq (.star rxAny) (.seq .wb (.seq (rxLit "lecturer") (.opt (rxChar 's'))))))))),
    -- r'\bsiapa\s+saja\s+dosen'
    .seq .wb (.seq (rxLit "siapa") (.seq rxWSp (.seq (rxLit "saja") (.seq rxWSp (rxLit "dosen"))))),
    -- r'\bdaftar\s+dosen'
    .seq .wb (.seq (rxLit "daftar") (.seq rxWSp (rxLit "dosen"))) ]

/-- `basic_lookup_patterns` (`agent_core_simple.py:116-122`). -/
def basic_lookup_patterns : List RX :=
  [ .seq .wb (.seq (rxLit "who") (.seq rxWSp (.seq (rxLit "is") .wb))),
    .seq .wb (.seq (rxLit "siapa") (.seq rxWSp (.seq (.opt (.grp (rxLit "itu"))) .wb))),
    .seq .wb (.seq (rxLit "tell") (.seq rxWSp (.seq (rxLit "me") (.seq rxWSp (.seq (rxLit "about") .wb))))),
    .seq .wb (.seq (rxLit "information") (.seq rxWSp (.seq (rxLit "about") .wb))),
    .seq .wb (.seq (rxLit "profile") (.seq rxWSp (.seq (rxLit "of") .wb))) ]

/-- `r'\b[A-Z][a-z]+(?:\s+[A-Z][a-z]+)+\b'` — a capitalized multi-word name
(`agent_core_simple.py:125`). -/
def person_name_pattern : RX :=
  .seq .wb (.seq rxCapWord (.seq (.plus (.seq rxWSp rxCapWord)) .wb))

/-- The three query tiers returned by `SimpleRAG._detect_query_type`. -/
inductive QueryType where
  | SIMPLE_LIST
  | BASIC_LOOKUP
  | COMPLEX
deriving DecidableEq, Repr

/-- `SimpleRAG._detect_query_type` (`agent_core_simple.py:89-132`): roster
patterns first (→ SIMPLE_LIST), then the lookup patterns or a bare
capitalized name (→ BASIC_LOOKUP), else COMPLEX. -/
def detect_query_type (query : String) : QueryType :=
  let query_lower := pyLower query
  if simple_list_patterns.any (fun p => reSearch p query_lower) then
    .SIMPLE_LIST
  else
    let has_person_name := reSearch person_name_pattern query
    if basic_lookup_patterns.any (fun p => reSearch p query_lower || has_person_name) then
      .BASIC_LOOKUP
    else
      .COMPLEX

/-- The keyword pairs of `SimpleRAG._filter_personal_info`
(`agent_core_simple.py:308-312`). -/
def simple_personal_keywords : List (String × String) :=
  [("born on", "tanggal lahir"), ("married to", "menikah dengan"), ("has children", "memiliki anak")]

/-- `SimpleRAG._filter_personal_info` (`agent_core_simple.py:306-327`): drop
every line containing one of the personal keywords (case-insensitive). -/
def simple_filter_personal_info (text : String) : String :=
  let lines := splitLines text
  let filtered := lines.filter (fun line =>
    let line_lower := pyLower line
    !(simple_personal_keywords.any (fun kw =>
      strContains line_lower kw.1 || strContains line_lower kw.2)))
  joinLines filtered

/-- Loop body of `SimpleRAG._deduplicate_gentle`: non-bullet lines always
pass; bullet lines pass only on first exact occurrence of their stripped
text. -/
def dedupGentleAux : List String → List String → List String
  | [], _ => []
  | line :: ls, seen =>
    let clean := pyStrip line
    if !(pyStartsWith clean "•") && !(pyStartsWith clean "-") then
      line :: dedupGentleAux ls seen
    else if seen.contains clean then
      dedupGentleAux ls seen
    else
      line :: dedupGentleAux ls (clean :: seen)

/-- `SimpleRAG._deduplicate_gentle` (`agent_core_simple.py:355-372`). -/
def deduplicate_gentle (text : String) : String :=
  joinLines (dedupGentleAux (splitLines text) [])

/-! ## `backend/agent_core.py` — `HybridRAG`

The pronoun resolver `_resolve_pronouns_in_query`, the family-information
filter `_filter_personal_info`, and the output dedup `_safety_check`. -/

/-- Replace every match of `r` in the input by `repl`
(Python `re.sub` with a constant replacement). -/
def subAllAux (r : RX) (repl : String) : Nat → Option Char → List Char → List Char
  | 0, _, _ => []
  | fuel + 1, p, s =>
    match mmatch (rxFuel r s) r p s (fun pe se => some ([], pe, se)) with
    | some (_, pe, rest) =>
      if rest.length < s.length then repl.toList ++ subAllAux r repl fuel pe rest
      else
        match s with
        | [] => repl.toList
        | c :: t => repl.toList ++ c :: subAllAux r repl fuel (some c) t
    | none =>
      match s with
      | [] => []
      | c :: rest => c :: subAllAux r repl fuel (some c) rest

/-- Python `re.sub(r, repl, s)` with a constant replacement string. -/
def reSub (r : RX) (repl s : String) : String :=
  String.mk (subAllAux r repl (s.toList.length + 1) none s.toList)

/-- A conversation message as stored by `main.py` (`user`/`assistant` keys)
or in the generic `role`/`content` form; `.get` with missing keys yields the
defaults used in the source. -/
structure PyMsg where
  userText? : Option String := none
  assistantText? : Option String := none
  contentText? : Option String := none

/-- `msg.get('user', '') if 'user' in msg else msg.get('content', '')`
(`agent_core.py:175`). -/
def msgUser (m : PyMsg) : String :=
  match m.userText? with
  | some u => u
  | none => m.contentText?.getD ""

/-- `msg.get('assistant', '') if 'assistant' in msg else ''`
(`agent_core.py:176`). -/
def msgAssistant (m : PyMsg) : String := m.assistantText?.getD ""

/-- The pronoun token list of `_resolve_pronouns_in_query`
(`agent_core.py:162-163`). -/
def pronoun_tokens : List String :=
  ["his", "her", "their", "him", "them", "he", "she", "they",
   "nya", "dia", "beliau", "tersebut"]

/-- `(?: [A-Z][a-z]+)*` continuation of a captured name. -/
def rxNameTail : RX := .star (.seq (rxChar ' ') rxCapWord)

/-- The six name-extraction patterns of `_resolve_pronouns_in_query`
(`agent_core.py:182-191`), each with one capture group. -/
def name_patterns : List RX :=
  [ .seq (rxLit "who is ") (.grp (.seq rxCapWord rxNameTail)),
    .seq (rxLit "siapa itu ") (.grp (.seq rxCapWord rxNameTail)),
    .seq (rxLit "about ") (.grp (.seq rxCapWord rxNameTail)),
    .seq (rxLit "tentang ") (.grp (.seq rxCapWord rxNameTail)),
    -- r'((?:Prof\.?|Dr\.?|Ir\.?)\s+[A-Z][a-z]+(?: [A-Z][a-z]+)+)'
    .grp (.seq (rxAlts [.seq (rxLit "Prof") (.opt (rxChar '.')),
                        .seq (rxLit "Dr") (.opt (rxChar '.')),
                        .seq (rxLit "Ir") (.opt (rxChar '.'))])
      (.seq rxWSp (.seq rxCapWord (.plus (.seq (rxChar ' ') rxCapWord))))),
    -- r'\b([A-Z][a-z]+ [A-Z][a-z]+(?:\s+[A-Z][a-z]+)?(?:\s+[A-Z][a-z]+)?)\b'
    .seq .wb (.seq (.grp (.seq rxCapWord (.seq (rxChar ' ') (.seq rxCapWord
      (.seq (.opt (.seq rxWSp rxCapWord)) (.opt (.seq rxWSp rxCapWord))))))) .wb) ]

/-- Inner loop of the name extraction: run every pattern on the combined
text, keep matches that pass the length/stop-word validation
(`agent_core.py:193-199`). -/
def extractNamesFromText (t : String) : List String :=
  (name_patterns.map (fun p =>
    ((reFindAll p t).map pyStrip).filter (fun name =>
      name.length > 3 && !(["About", "More About", "Information"].contains name)))).flatten

/-- Names collected from the last four history messages, newest first
(`agent_core.py:173-199`). -/
def extracted_names (history : List PyMsg) : List String :=
  (((takeLast history 4).reverse).map (fun m =>
    extractNamesFromText (msgUser m ++ " " ++ msgAssistant m))).flatten

/-- `r'about (him|her|them)'` with `re.IGNORECASE`. -/
def pat_about_pronoun : RX :=
  .seq (rxLitCI "about ") (.grp (rxAlts [rxLitCI "him", rxLitCI "her", rxLitCI "them"]))

/-- `r'\b' + pronoun + r'\b'` with `re.IGNORECASE`. -/
def pat_word (w : String) : RX := .seq .wb (.seq (rxLitCI w) .wb)

/-- `r'(his|her) research'` with `re.IGNORECASE`. -/
def pat_hisher_research : RX :=
  .seq (.grp (rxAlts [rxLitCI "his", rxLitCI "her"])) (rxLitCI " research")

/-- `r'(his|her) publication'` with `re.IGNORECASE`. -/
def pat_hisher_publication : RX :=
  .seq (.grp (rxAlts [rxLitCI "his", rxLitCI "her"])) (rxLitCI " publication")

/-- `HybridRAG._resolve_pronouns_in_query` (`agent_core.py:146-228`). -/
def resolve_pronouns_in_query (query : String) (history : List PyMsg) : String :=
  if history.isEmpty then query
  else
    let query_lower := pyLower query
    let has_pronoun := pronoun_tokens.any (fun p => (pySplitWS query_lower).contains p)
    if !has_pronoun then query
    else
      match extracted_names history with
      | [] => query
      | target_name :: _ =>
        if ["about him", "about her", "about them"].any (fun ph => strContains query_lower ph) then
          reSub pat_about_pronoun ("about " ++ target_name) query
        else if ["find more about", "more about", "tell me about"].any
            (fun ph => strContains query_lower ph) then
          ["him", "her", "them", "his", "their"].foldl
            (fun acc p => reSub (pat_word p) target_name acc) query
        else if strContains query_lower "his research" || strContains query_lower "her research" then
          reSub pat_hisher_research (target_name ++ "'s research") query
        else if strContains query_lower "his publication" ||
            strContains query_lower "her publication" then
          reSub pat_hisher_publication (target_name ++ "'s publications") query
        else
          query ++ " (referring to " ++ target_name ++ ")"

/-- The `family_patterns` of `HybridRAG._filter_personal_info`
(`agent_core.py:426-440`), all searched with `re.IGNORECASE`. -/
def family_patterns : List RX :=
  [ .seq (rxAlts [rxLitCI "born on", rxLitCI "lahir pada",
        .seq (rxLitCI "tanggal lahir") (.opt (rxChar ':'))])
      (.seq rxWSp (.seq rxDigit (.opt rxDigit))),
    .seq (rxAlts [rxLitCI "married to", rxLitCI "menikah dengan"]) (.seq rxWSp rxUpperCI),
    .seq (rxAlts [rxLitCI "has", rxLitCI "memiliki"])
      (.seq rxWSp (.seq (.plus rxDigit) (.seq rxWSp (rxAlts [rxLitCI "children", rxLitCI "anak"])))),
    .seq (rxAlts [rxLitCI "son", rxLitCI "daughter", rxLitCI "putra", rxLitCI "putri"])
      (rxAlts [.seq rxWSp (rxLitCI "named"), .seq rxWSp (rxLitCI "bernama")]),
    rxAlts [rxLitCI "family member", rxLitCI "anggota keluarga"],
    rxAlts [rxLitCI "personal life", rxLitCI "kehidupan pribadi"],
    .seq (rxAlts [rxLitCI "his", rxLitCI "her"])
      (.seq rxWSp (rxAlts [rxLitCI "wife", rxLitCI "husband", rxLitCI "spouse",
        rxLitCI "istri", rxLitCI "suami"])),
    .seq (rxAlts [rxLitCI "wife", rxLitCI "husband", rxLitCI "spouse",
        rxLitCI "istri", rxLitCI "suami"])
      (rxAlts [.seq rxWSp (rxLitCI "is"), .seq rxWSp (rxLitCI "named"),
        .seq rxWSp (rxLitCI "bernama")]) ]

/-- The `professional_keywords` of `HybridRAG._filter_personal_info`
(`agent_core.py:456-462`); `'professor'` is listed twice in the source. -/
def professional_keywords : List String :=
  ["professor", "lecturer", "director", "chairperson", "chair",
   "cio", "head", "dean", "coordinator", "secretary", "member",
   "founder", "president", "vice", "assistant", "associate",
   "professor", "dosen", "guru besar", "ketua", "sekretaris",
   "koordinator", "anggota", "reviewer", "committee", "board"]

/-- `HybridRAG._filter_personal_info` (`agent_core.py:414-476`): drop a line
iff it matches a family pattern and contains no professional keyword. -/
def filter_personal_info (text : String) : String :=
  let lines := splitLines text
  let filtered := lines.filter (fun line =>
    let is_family_info := family_patterns.any (fun p => reSearch p line)
    let has_professional_keyword :=
      professional_keywords.any (fun kw => strContains (pyLower line) kw)
    !(is_family_info && !has_professional_keyword))
  joinLines filtered

/-- Counting loop of `HybridRAG._safety_check` (`agent_core.py:487-494`):
skip whitespace-only lines, keep a line while its stripped text has been
seen at most twice. -/
def safetyDedupAux : List String → (String → Nat) → List String
  | [], _ => []
  | line :: ls, cnt =>
    let clean := pyStrip line
    if clean ≠ "" then
      let n := cnt clean + 1
      let cnt' := fun s => if s = clean then n else cnt s
      if n ≤ 2 then line :: safetyDedupAux ls cnt' else safetyDedupAux ls cnt'
    else safetyDedupAux ls cnt

/-- `HybridRAG._safety_check` (`agent_core.py:478-496`): truncate output
beyond 8000 chars, then drop 3rd-and-later repetitions of a line. -/
def safety_check (output : String) : String :=
  let output :=
    if output.length > 8000 then
      String.mk (output.toList.take 8000) ++ "\n\n[Output truncated for safety]"
    else output
  joinLines (safetyDedupAux (splitLines output) (fun _ => 0))

/-! ## `backend/pdf_generator.py` — structured extractor and CV renderer

`parse_markdown_cv` scans section-tagged markdown into the `cv_data`
dictionary (`CVData` here); `create_cv_pdf` lays that record out as a list
of styled blocks (`Block` here).  `datetime.now()` is made explicit as the
`today` argument of `parse_markdown_cv`. -/

/-- Python `str.upper()` (ASCII). -/
def pyUpper (s : String) : String := String.mk (s.toList.map Char.toUpper)

/-- The `cv_data` dictionary initialised at `pdf_generator.py:49-65`.
`sinta_url`/`scholar_url` are absent keys until the EXTERNAL PROFILES
branch adds them, hence `Option`. -/
structure CVData where
  name : String := "Unknown"
  title : String := ""
  affiliation : String := "Universitas Indonesia"
  department : String := "Departemen Teknik Elektro"
  email : String := ""
  birth_info : String := ""
  research_areas : List String := []
  education : List String := []
  positions : List String := []
  publications : List String := []
  sinta_score : String := ""
  google_scholar : String := ""
  scopus : String := ""
  generated_date : String := ""
  family_info : String := ""
  sinta_url : Option String := none
  scholar_url : Option String := none
deriving DecidableEq, Repr

/-- The `invalid_phrases` of `is_valid_data` (`pdf_generator.py:76`). -/
def invalid_phrases : List String :=
  ["not available", "information not available", "n/a", "none", "-"]

/-- `is_valid_data` (`pdf_generator.py:74-78`): non-empty after
lower+strip, longer than 3, and free of every placeholder phrase. -/
def is_valid_data (text : String) : Bool :=
  let text_lower := pyStrip (pyLower text)
  text_lower ≠ "" && text_lower.length > 3 &&
    !(invalid_phrases.any (fun phrase => strContains text_lower phrase))

/-- Split a char list at the first `'*'`. -/
def takeNonStar : List Char → List Char × List Char
  | [] => ([], [])
  | c :: t =>
    if c == '*' then ([], c :: t)
    else
      let r := takeNonStar t
      (c :: r.1, r.2)

/-- Python `re.sub(r'\*\*([^*]+)\*\*', r'\1', s)` scanning loop: at a
`**`, a non-empty star-free run closed by `**` is unwrapped, else the scan
advances one character.  The fuel (one unit per emitted char) keeps the
recursion structural. -/
def removeBoldAux : Nat → List Char → List Char
  | 0, l => l
  | _ + 1, [] => []
  | fuel + 1, '*' :: '*' :: rest =>
    let pr := takeNonStar rest
    if pr.1 ≠ [] && pr.2.take 2 = ['*', '*'] then
      pr.1 ++ removeBoldAux fuel (pr.2.drop 2)
    else
      '*' :: removeBoldAux fuel ('*' :: rest)
  | fuel + 1, c :: rest => c :: removeBoldAux fuel rest

/-- Bold-markup removal (`re.sub(r'\*\*([^*]+)\*\*', r'\1', ·)`). -/
def removeBold (s : String) : String :=
  String.mk (removeBoldAux (s.toList.length + 1) s.toList)

/-- `re.sub(r'```markdown\s*', '', text)` (`pdf_generator.py:68`). -/
def stripFenceHead : Nat → List Char → List Char
  | 0, l => l
  | _ + 1, [] => []
  | fuel + 1, c :: t =>
    if ("```markdown".toList).isPrefixOf (c :: t) then
      stripFenceHead fuel ((t.drop 10).dropWhile Char.isWhitespace)
    else
      c :: stripFenceHead fuel t

/-- `re.sub(r'```\s*$', '', text)` (`pdf_generator.py:69`): erase from the
first ``` that is followed only by whitespace up to the end. -/
def stripFenceTail : List Char → List Char
  | [] => []
  | c :: t =>
    if ("```".toList).isPrefixOf (c :: t) && ((c :: t).drop 3).all Char.isWhitespace then []
    else c :: stripFenceTail t

/-- The code-fence preprocessing of `parse_markdown_cv`. -/
def removeFences (s : String) : String :=
  String.mk (stripFenceTail (stripFenceHead (s.toList.length + 1) s.toList))

/-- `line.split(':', 1)[1].strip() if ':' in line else ''`. -/
def afterColon (line : String) : String :=
  match line.toList.dropWhile (fun c => c ≠ ':') with
  | [] => ""
  | _ :: rest => pyStrip (String.mk rest)

/-- `re.sub(r'^\d+\.\s*', '', line)`. -/
def stripNumDot (line : String) : String :=
  let l := line.toList
  let ds := l.takeWhile Char.isDigit
  let rest := l.drop ds.length
  if ds ≠ [] && rest.take 1 = ['.'] then
    String.mk ((rest.drop 1).dropWhile Char.isWhitespace)
  else line

/-- `r'^\d+\.'` used with `re.match` (`pdf_generator.py:167`). -/
def pat_num_dot : RX := .seq (.plus rxDigit) (rxChar '.')

/-- `r'SINTA Score[:\s]+([0-9.]+)'` with `re.IGNORECASE`. -/
def pat_sinta_score : RX :=
  .seq (rxLitCI "SINTA Score")
    (.seq (.plus (.sym (fun c => c == ':' || c.isWhitespace)))
      (.grp (.plus (.sym (fun c => c.isDigit || c == '.')))))

/-- `r'H-Index[:\s]+([0-9]+)'` with `re.IGNORECASE`. -/
def pat_h_index : RX :=
  .seq (rxLitCI "H-Index")
    (.seq (.plus (.sym (fun c => c == ':' || c.isWhitespace))) (.grp (.plus rxDigit)))

/-- `r'Citations[:\s]+([0-9,]+)'` with `re.IGNORECASE`. -/
def pat_citations : RX :=
  .seq (rxLitCI "Citations")
    (.seq (.plus (.sym (fun c => c == ':' || c.isWhitespace)))
      (.grp (.plus (.sym (fun c => c.isDigit || c == ',')))))

/-- `r'https?://[^\s]+'` (whole match wrapped as the group). -/
def pat_url : RX :=
  .grp (.seq (rxLit "http") (.seq (.opt (rxChar 's'))
    (.seq (rxLit "://") (.plus (.sym (fun c => !c.isWhitespace))))))

/-- Scanner state of `parse_markdown_cv`: current section, current
subsection, record under construction. -/
structure MdState where
  section? : Option String := none
  subsection? : Option String := none
  cv : CVData := {}

/-- The PERSONAL INFORMATION branch (`pdf_generator.py:107-127`); the
temporaries (`title = line.split(':', 1)[1].strip()` …) are inlined. -/
def personalInfoLine (cv : CVData) (line : String) : CVData :=
  if pyStartsWith line "- **Position" then
    if is_valid_data (afterColon line) then { cv with title := afterColon line } else cv
  else if pyStartsWith line "- **Affiliation" then
    if is_valid_data (afterColon line) then { cv with affiliation := afterColon line } else cv
  else if pyStartsWith line "- **Department" then
    if is_valid_data (afterColon line) then { cv with department := afterColon line } else cv
  else if pyStartsWith line "- **Born" then
    if is_valid_data (afterColon line) then { cv with birth_info := afterColon line } else cv
  else if pyStartsWith line "- **Email" then
    if is_valid_data (afterColon line) then { cv with email := afterColon line } else cv
  else cv

/-- The ACADEMIC METRICS branch (`pdf_generator.py:178-193`). -/
def metricsLine (cv : CVData) (line : String) : CVData :=
  if strContains line "SINTA Score:" || strContains (pyLower line) "sinta score:" then
    match reSearchGroup pat_sinta_score line with
    | some score => { cv with sinta_score := score }
    | none => cv
  else if strContains line "H-Index:" || strContains (pyLower line) "h-index:" then
    match reSearchGroup pat_h_index line with
    | some h => { cv with google_scholar := "H-Index: " ++ h }
    | none => cv
  else if strContains line "Citations:" || strContains line "Total Citations:" then
    match reSearchGroup pat_citations line with
    | some c =>
      if cv.google_scholar ≠ "" then
        { cv with google_scholar := cv.google_scholar ++ ", Citations: " ++ c }
      else
        { cv with google_scholar := "Citations: " ++ c }
    | none => cv
  else cv

/-- The EXTERNAL PROFILES branch (`pdf_generator.py:195-203`). -/
def profilesLine (cv : CVData) (line : String) : CVData :=
  if strContains line "SINTA:" then
    match reSearchGroup pat_url line with
    | some url => { cv with sinta_url := some url }
    | none => cv
  else if strContains line "Google Scholar:" || strContains line "Scholar:" then
    match reSearchGroup pat_url line with
    | some url => { cv with scholar_url := some url }
    | none => cv
  else cv

/-- The ACADEMIC BACKGROUND branch (`pdf_generator.py:129-137`); the first
condition of the source's inner `if` is kept verbatim even though its
second disjunct is always true inside this branch. -/
def academicBackgroundLine (st : MdState) (line : String) : MdState :=
  if st.subsection? = some "EDUCATION HISTORY" || st.section? = some "ACADEMIC BACKGROUND" then
    if pyStartsWith line "- **" then
      if is_valid_data (removeBold (pyStrip (line.drop 2))) then
        { st with cv := { st.cv with
            education := st.cv.education ++ [removeBold (pyStrip (line.drop 2))] } }
      else st
    else st
  else st

/-- The legacy EDUCATION branch (`pdf_generator.py:139-144`). -/
def educationLine (st : MdState) (line : String) : MdState :=
  if pyStartsWith line "- " then
    if is_valid_data (pyStrip (line.drop 2)) then
      { st with cv := { st.cv with education := st.cv.education ++ [pyStrip (line.drop 2)] } }
    else st
  else st

/-- The CURRENT POSITIONS branch (`pdf_generator.py:146-151`). -/
def positionsLine (st : MdState) (line : String) : MdState :=
  if pyStartsWith line "- " then
    if is_valid_data (removeBold (pyStrip (line.drop 2))) then
      { st with cv := { st.cv with
          positions := st.cv.positions ++ [removeBold (pyStrip (line.drop 2))] } }
    else st
  else st

/-- The RESEARCH INTERESTS branch (`pdf_generator.py:153-159`). -/
def researchLine (st : MdState) (line : String) : MdState :=
  if pyStartsWith line "- " then
    if is_valid_data (removeBold (pyStrip (line.drop 2))) then
      { st with cv := { st.cv with
          research_areas := st.cv.research_areas ++ [removeBold (pyStrip (line.drop 2))] } }
    else st
  else st

/-- The PUBLICATIONS branch (`pdf_generator.py:161-176`): numbered entries
and bullet entries, both guarded by `is_valid_data(pub) and len(pub) > 15`. -/
def publicationsLine (st : MdState) (line : String) : MdState :=
  if reMatchStart pat_num_dot line then
    if is_valid_data (removeBold (pyStrip (stripNumDot line))) &&
        (removeBold (pyStrip (stripNumDot line))).length > 15 then
      { st with cv := { st.cv with
          publications := st.cv.publications ++ [removeBold (pyStrip (stripNumDot line))] } }
    else st
  else if pyStartsWith line "- " then
    if is_valid_data (removeBold (pyStrip (line.drop 2))) &&
        (removeBold (pyStrip (line.drop 2))).length > 15 then
      { st with cv := { st.cv with
          publications := st.cv.publications ++ [removeBold (pyStrip (line.drop 2))] } }
    else st
  else st

/-- The section dispatch on content lines (the `elif current_section`
chain of `pdf_generator.py:107-203`). -/
def contentLine (st : MdState) (line : String) : MdState :=
  if st.section? = some "PERSONAL INFORMATION" then
    { st with cv := personalInfoLine st.cv line }
  else if st.section? = some "ACADEMIC BACKGROUND" then
    academicBackgroundLine st line
  else if st.section? = some "EDUCATION" then
    educationLine st line
  else if st.section? = some "CURRENT POSITIONS" || st.section? = some "CURRENT POSITIONS & ROLES" then
    positionsLine st line
  else if st.section? = some "RESEARCH INTERESTS" ||
      st.section? = some "RESEARCH INTERESTS & EXPERTISE" then
    researchLine st line
  else if st.section? = some "PUBLICATIONS" ||
      st.section? = some "PUBLICATIONS & SCHOLARLY WORKS" then
    publicationsLine st line
  else if st.section? = some "ACADEMIC METRICS" ||
      st.section? = some "ACADEMIC METRICS & IMPACT" then
    { st with cv := metricsLine st.cv line }
  else if st.section? = some "EXTERNAL PROFILES" ||
      st.section? = some "EXTERNAL PROFILES & LINKS" then
    { st with cv := profilesLine st.cv line }
  else st

/-- One iteration of the line loop of `parse_markdown_cv`
(`pdf_generator.py:82-203`): skip blanks, handle the three header forms,
else dispatch on the current section. -/
def mdLine (st : MdState) (rawLine : String) : MdState :=
  let line := pyStrip rawLine
  if line = "" then st
  else if pyStartsWith line "# " then
    { st with cv := { st.cv with name := pyStrip (line.drop 2) } }
  else if pyStartsWith line "## " then
    { st with section? := some (pyUpper (pyStrip (line.drop 3))), subsection? := none }
  else if pyStartsWith line "### " then
    { st with subsection? := some (pyUpper (pyStrip (line.drop 4))) }
  else
    contentLine st line

/-- `parse_markdown_cv` (`pdf_generator.py:42-213`); `today` stands for
`datetime.now().strftime('%d %B %Y')`. -/
def parse_markdown_cv (today markdown_text : String) : CVData :=
  let init : MdState := { cv := { generated_date := today } }
  ((splitLines (removeFences markdown_text)).foldl mdLine init).cv

/-- `pub.replace('<', '&lt;').replace('>', '&gt;')`. -/
def htmlEscape (s : String) : String :=
  String.mk ((s.toList.map (fun c =>
    if c = '<' then "&lt;".toList else if c = '>' then "&gt;".toList else [c])).flatten)

/-- One styled flowable appended to the `story` of `create_cv_pdf`; the
constructor records the style the source paragraph uses, `spacer n` is a
`Spacer` of `n/10` inch, and `morePubs n` is the body paragraph
`"<i>... and {n} more publications</i>"`. -/
inductive Block where
  | title (s : String)
  | subtitle (s : String)
  | affiliation (s : String)
  | body (s : String)
  | sectionTitle (s : String)
  | morePubs (n : Nat)
  | footerLine (s : String)
  | spacer (tenths : Nat)
deriving DecidableEq, Repr

/-- `f"{i}. {pub_clean}"` body paragraphs for the enumerated publications. -/
def numberedBodies : Nat → List String → List Block
  | _, [] => []
  | i, p :: ps => .body (toString i ++ ". " ++ htmlEscape p) :: numberedBodies (i + 1) ps

/-- `total_items` (`pdf_generator.py:498-503`). -/
def totalItems (cv : CVData) : Nat :=
  cv.research_areas.length + cv.publications.length + cv.education.length + cv.positions.length

/-- The closing note text (`pdf_generator.py:507-511`). -/
def limitedDataNote : String :=
  "This CV was generated based on available information from the conversation and database. " ++
  "For more comprehensive information, please visit the official university website or contact the faculty directly."

/-- The story built by `create_cv_pdf` from a parsed record
(`pdf_generator.py:436-524`): header, optional personal/metric lines, the
four capped sections, the low-data note, and the footer. -/
def buildStory (cv : CVData) : List Block :=
  [Block.title (pyUpper cv.name), Block.subtitle cv.title,
   Block.affiliation (cv.department ++ ", " ++ cv.affiliation)]
  ++ (if cv.birth_info ≠ "" then [Block.body ("<b>Born:</b> " ++ cv.birth_info)] else [])
  ++ (if cv.email ≠ "" then [Block.body ("<b>Email:</b> " ++ cv.email)] else [])
  ++ (if cv.family_info ≠ "" then [Block.body ("<b>Family:</b> " ++ cv.family_info)] else [])
  ++ [Block.spacer 3]
  ++ (if cv.sinta_score ≠ "" then
        [Block.body ("<b>SINTA Score:</b> " ++ cv.sinta_score), Block.spacer 2]
      else [])
  ++ (if cv.positions ≠ [] then
        Block.sectionTitle "CURRENT POSITIONS"
          :: (cv.positions.take 5).map (fun pos => Block.body ("• " ++ htmlEscape pos))
          ++ [Block.spacer 2]
      else [])
  ++ (if cv.research_areas ≠ [] then
        Block.sectionTitle "RESEARCH INTERESTS"
          :: (cv.research_areas.take 8).map (fun area => Block.body ("• " ++ htmlEscape area))
          ++ [Block.spacer 2]
      else [])
  ++ (if cv.education ≠ [] then
        Block.sectionTitle "EDUCATION"
          :: (cv.education.take 5).map (fun edu => Block.body ("• " ++ htmlEscape edu))
          ++ [Block.spacer 2]
      else [])
  ++ (if cv.publications ≠ [] then
        Block.sectionTitle "SELECTED PUBLICATIONS"
          :: numberedBodies 1 (cv.publications.take 10)
          ++ (if cv.publications.length > 10 then
                [Block.morePubs (cv.publications.length - 10)]
              else [])
          ++ [Block.spacer 2]
      else [])
  ++ (if totalItems cv < 3 then
        [Block.sectionTitle "NOTE", Block.body limitedDataNote]
      else [])
  ++ [Block.spacer 5,
      Block.footerLine "Curriculum Vitae generated by Check Please AI System",
      Block.footerLine ("Generated on: " ++ cv.generated_date),
      Block.footerLine "Based on conversation data and academic database sources"]

/-! ## `backend/main.py` — chat endpoint, session store, upload

`is_chitchat`, the session store update `store_conversation`, the call of
`run_simple_rag` from `handle_chat_query` (with Python's positional-call
arity rule made explicit), and the document constructed by `upload_pdf`. -/

/-- The `chitchat_keywords` of `is_chitchat` (`main.py:140-148`). -/
def chitchat_keywords : List String :=
  ["halo", "hai", "hello", "hi", "hey",
   "selamat pagi", "selamat siang", "selamat malam",
   "good morning", "good afternoon", "good evening",
   "apa kabar", "how are you",
   "test", "testing", "tes",
   "terima kasih", "thank you", "thanks",
   "bye", "goodbye", "sampai jumpa"]

/-- `is_chitchat` (`main.py:134-155`): at most three tokens and some
chitchat keyword occurring as a substring. -/
def is_chitchat (query : String) : Bool :=
  let query_lower := pyStrip (pyLower query)
  if (pySplitWS query_lower).length ≤ 3 then
    chitchat_keywords.any (fun kw => strContains query_lower kw)
  else
    false

/-- One stored conversation turn (`main.py:177-181`). -/
structure Turn where
  timestamp : String
  user : String
  assistant : String
deriving DecidableEq, Repr

/-- The in-memory `conversation_sessions` mapping (`main.py:65`). -/
def SessionStore : Type := String → List Turn

/-- The empty store: every session is absent (`.get` yields `[]`). -/
def emptyStore : SessionStore := fun _ => []

/-- `store_conversation` (`main.py:172-184`): append the turn, then keep
only the most recent 10 turns when the list exceeds 10. -/
def store_conversation (store : SessionStore) (session_id : String) (turn : Turn) :
    SessionStore :=
  fun sid =>
    if sid = session_id then
      let history := store session_id ++ [turn]
      if history.length > 10 then takeLast history 10 else history
    else store sid

/-- A sequence of chat requests applied to the store in order. -/
def applyStores (ops : List (String × Turn)) (store : SessionStore) : SessionStore :=
  ops.foldl (fun st op => store_conversation st op.1 op.2) store

/-- All turns ever stored for a session, oldest first. -/
def allTurnsFor (sid : String) (ops : List (String × Turn)) : List Turn :=
  (ops.filter (fun op => op.1 = sid)).map (fun op => op.2)

/-- A Python positional call: binding more positional arguments than the
callee has parameters (or fewer than its non-default parameters) raises
`TypeError`; otherwise the callee's body runs. -/
inductive PyCallResult (α : Type) where
  | typeError
  | value (a : α)
deriving DecidableEq, Repr

/-- A Python value passed as an argument in the embedded calls. -/
inductive PyVal where
  | str (s : String)
  | strList (l : List String)
  | turns (l : List Turn)
deriving DecidableEq, Repr

/-- Call a Python function given its parameter counts: `required` is the
number of parameters without defaults, `total` the number of parameters. -/
def pyCall (required total : Nat) (args : List PyVal) (body : List PyVal → α) :
    PyCallResult α :=
  if args.length < required || total < args.length then .typeError
  else .value (body args)

/-- `run_simple_rag(user_query, user_urls=None, conversation_history=None)`
(`agent_core_simple.py:392`): one required parameter, three in total. -/
def run_simple_rag_required : Nat := 1

/-- Total parameter count of `run_simple_rag`. -/
def run_simple_rag_total : Nat := 3

/-- Outcome of `handle_chat_query` as seen by the HTTP caller: either a
normal `{response, session_id}` payload or the 500 error payload built in
the `except` branch (`main.py:264-271`). -/
inductive ChatOutcome where
  | ok (response : String)
  | errorPayload
deriving DecidableEq, Repr

/-- The routing and call of `handle_chat_query` (`main.py:235-271`): the
chitchat branch answers directly; the academic branch calls
`run_simple_rag(request.message, request.user_urls, conversation_history,
session_id)` with four positional arguments (`main.py:248`).  The bodies of
the two collaborators (`chitchat`, `rag`) are abstract parameters. -/
def handle_chat_query (chitchat : String → String) (rag : List PyVal → String)
    (message : String) (user_urls : List String) (conversation_history : List Turn)
    (session_id : String) : ChatOutcome :=
  if user_urls.isEmpty && is_chitchat message then
    .ok (chitchat message)
  else
    match pyCall run_simple_rag_required run_simple_rag_total
        [.str message, .strList user_urls, .turns conversation_history, .str session_id] rag with
    | .typeError => .errorPayload
    | .value r => .ok r

/-- A document stored in the vector collection, with the metadata fields
written by `upload_pdf` (`main.py:511-520`). -/
structure StoredDoc where
  text : String
  page_number : Nat
  pdf_name : String
  source_type : String
  session_id : String
deriving DecidableEq, Repr

/-- The chunk document built by `upload_pdf` for a session
(`main.py:511-520`): `source_type` is always `"user_pdf"` and `session_id`
is the uploading session. -/
def mkUserPdfDoc (session_id text pdf_name : String) (page : Nat) : StoredDoc :=
  { text := text, page_number := page, pdf_name := pdf_name,
    source_type := "user_pdf", session_id := session_id }

/-! ## `backend/tools.py` — scraper retry loop and PDF search filter -/

/-- What one attempt of the HTTP fetch inside
`DynamicWebScraperTool._scrape_ui_staff_page` does, classified by the
exception class it raises: `requests.exceptions.Timeout`, a permanent 404
(`raise_for_status` raises `requests.exceptions.HTTPError`, a subclass of
`RequestException`), any other `RequestException`, or a non-requests
exception. -/
inductive FetchOutcome where
  | ok (content : String)
  | timeout
  | httpNotFound
  | httpTransient
  | otherError
deriving DecidableEq, Repr

/-- Result classes returned by the scraper. -/
inductive ScrapeResult where
  | success (content : String)
  | timeoutMsg
  | httpErrMsg
  | otherErrMsg
  | exhaustedMsg
deriving DecidableEq, Repr

/-- Trace of one `_scrape_ui_staff_page` run: attempts performed, the
`time.sleep` delays in seconds, and the outcome. -/
structure ScrapeTrace where
  attempts : Nat
  sleeps : List Nat
  result : ScrapeResult
deriving DecidableEq, Repr

/-- `max_retries = 3` (`tools.py:244`). -/
def max_retries : Nat := 3

/-- The retry loop of `_scrape_ui_staff_page` (`tools.py:247-396`),
indexed by the attempt number: a `Timeout` waits `attempt * 5` seconds and
retries while `attempt < max_retries`; any `RequestException` (including a
permanent 404) waits `attempt * 3` and retries under the same bound; any
other exception returns its error message immediately. -/
def scrapeLoop (outcome : Nat → FetchOutcome) : Nat → Nat → ScrapeTrace
  | 0, _ => { attempts := 0, sleeps := [], result := .exhaustedMsg }
  | remaining + 1, attempt =>
    match outcome attempt with
    | .ok c => { attempts := attempt, sleeps := [], result := .success c }
    | .timeout =>
      if attempt < max_retries then
        let t := scrapeLoop outcome remaining (attempt + 1)
        { t with sleeps := attempt * 5 :: t.sleeps, attempts := t.attempts }
      else
        { attempts := attempt, sleeps := [], result := .timeoutMsg }
    | .httpNotFound =>
      if attempt < max_retries then
        let t := scrapeLoop outcome remaining (attempt + 1)
        { t with sleeps := attempt * 3 :: t.sleeps, attempts := t.attempts }
      else
        { attempts := attempt, sleeps := [], result := .httpErrMsg }
    | .httpTransient =>
      if attempt < max_retries then
        let t := scrapeLoop outcome remaining (attempt + 1)
        { t with sleeps := attempt * 3 :: t.sleeps, attempts := t.attempts }
      else
        { attempts := attempt, sleeps := [], result := .httpErrMsg }
    | .otherError => { attempts := attempt, sleeps := [], result := .otherErrMsg }

/-- `_scrape_ui_staff_page` as a function of the per-attempt outcomes. -/
def scrape_ui_staff_page (outcome : Nat → FetchOutcome) : ScrapeTrace :=
  scrapeLoop outcome max_retries 1

/-- The find filter of `PDFSearchTool._run` (`tools.py:1144-1149`):
`filter={"source_type": "user_pdf"}` — no session condition. -/
def pdfSearchFilter (d : StoredDoc) : Bool := d.source_type == "user_pdf"

/-- The candidate set the vector search ranks and truncates: every stored
document passing the filter.  `PDFSearchTool._run` takes only the query —
no session identifier reaches the filter. -/
def pdfSearchCandidates (store : List StoredDoc) : List StoredDoc :=
  store.filter pdfSearchFilter

/-! ## Spec-side definitions

Definitions written from the words of the specification (not from the
source), used to compare the spec's statements with the embedded code. -/

/-- Modelled from the spec: a query matching a "detailed/compare/verify
pattern" — the code defines no such pattern, so this renders the spec's
wording directly as an occurrence of one of the three words. -/
def specDetailedCompareVerify (query : String) : Bool :=
  strContains (pyLower query) "detailed" || strContains (pyLower query) "compare" ||
    strContains (pyLower query) "verify"

/-- Modelled from the spec: content-level dedup — "an exact-match line
appearing a 3rd time or beyond is dropped; lines are otherwise passed
through unmodified, preserving order".  Occurrences are counted by the
line's stripped text (`prevs` holds the stripped text of every earlier
line). -/
def specDedupAux : List String → List String → List String
  | [], _ => []
  | l :: ls, prevs =>
    if pyStrip l ≠ "" ∧ prevs.countP (fun x => x == pyStrip l) < 2 then
      l :: specDedupAux ls (pyStrip l :: prevs)
    else
      specDedupAux ls (pyStrip l :: prevs)

/-- Modelled from the spec: the dedup that keeps only the first two
occurrences of each (non-blank) line. -/
def dedup_spec (lines : List String) : List String := specDedupAux lines []

/-- A `morePubs` trailer block ("…and N more"). -/
def isMoreTrailer : Block → Bool
  | .morePubs _ => true
  | _ => false

/-! ## Theorems for the claims -/

theorem personalInfoLine_publications (cv : CVData) (line : String) :
    (personalInfoLine cv line).publications = cv.publications := by
  unfold personalInfoLine
  split_ifs <;> rfl

theorem metricsLine_publications (cv : CVData) (line : String) :
    (metricsLine cv line).publications = cv.publications := by
  unfold metricsLine
  split_ifs <;> try rfl
  all_goals split <;> try rfl

theorem profilesLine_publications (cv : CVData) (line : String) :
    (profilesLine cv line).publications = cv.publications := by
  unfold profilesLine
  split_ifs <;> try rfl
  all_goals split <;> rfl

theorem academicBackgroundLine_publications (st : MdState) (line : String) :
    (academicBackgroundLine st line).cv.publications = st.cv.publications := by
  unfold academicBackgroundLine
  split_ifs <;> rfl

theorem educationLine_publications (st : MdState) (line : String) :
    (educationLine st line).cv.publications = st.cv.publications := by
  unfold educationLine
  split_ifs <;> rfl

theorem positionsLine_publications (st : MdState) (line : String) :
    (positionsLine st line).cv.publications = st.cv.publications := by
  unfold positionsLine
  split_ifs <;> rfl

theorem researchLine_publications (st : MdState) (line : String) :
    (researchLine st line).cv.publications = st.cv.publications := by
  unfold researchLine
  split_ifs <;> rfl

/-- The PUBLICATIONS branch either leaves the list unchanged or appends one
entry that passed the `is_valid_data pub and len(pub) > 15` guard. -/
theorem publicationsLine_spec (st : MdState) (line : String) :
    (publicationsLine st line).cv.publications = st.cv.publications ∨
    ∃ pub, (is_valid_data pub = true ∧ 15 < pub.length) ∧
      (publicationsLine st line).cv.publications = st.cv.publications ++ [pub] := by
  unfold publicationsLine
  split_ifs with h1 h2 h3 h4
  · rw [Bool.and_eq_true] at h2
    exact Or.inr ⟨_, ⟨h2.1, of_decide_eq_true h2.2⟩, rfl⟩
  · exact Or.inl rfl
  · rw [Bool.and_eq_true] at h4
    exact Or.inr ⟨_, ⟨h4.1, of_decide_eq_true h4.2⟩, rfl⟩
  · exact Or.inl rfl
  · exact Or.inl rfl

/-- `contentLine` either leaves the publications unchanged or appends one
guarded entry. -/
theorem contentLine_publications (st : MdState) (line : String) :
    (contentLine st line).cv.publications = st.cv.publications ∨
    ∃ pub, (is_valid_data pub = true ∧ 15 < pub.length) ∧
      (contentLine st line).cv.publications = st.cv.publications ++ [pub] := by
  unfold contentLine
  split_ifs with g1 g2 g3 g4 g5 g6 g7 g8
  · exact Or.inl (personalInfoLine_publications _ _)
  · exact Or.inl (academicBackgroundLine_publications _ _)
  · exact Or.inl (educationLine_publications _ _)
  · exact Or.inl (positionsLine_publications _ _)
  · exact Or.inl (researchLine_publications _ _)
  · exact publicationsLine_spec _ _
  · exact Or.inl (metricsLine_publications _ _)
  · exact Or.inl (profilesLine_publications _ _)
  · exact Or.inl rfl

/-- `mdLine` either leaves the publications unchanged or appends one entry
that passed the `is_valid_data pub and len(pub) > 15` guard. -/
theorem mdLine_publications (st : MdState) (line : String) :
    (mdLine st line).cv.publications = st.cv.publications ∨
    ∃ pub, (is_valid_data pub = true ∧ 15 < pub.length) ∧
      (mdLine st line).cv.publications = st.cv.publications ++ [pub] := by
  unfold mdLine
  simp only []
  split_ifs with g1 g2 g3 g4
  · exact Or.inl rfl
  · exact Or.inl rfl
  · exact Or.inl rfl
  · exact Or.inl rfl
  · exact contentLine_publications _ _

theorem mdLine_pubs_step (st : MdState) (line : String)
    (h : ∀ p ∈ st.cv.publications, is_valid_data p = true ∧ 15 < p.length) :
    ∀ p ∈ (mdLine st line).cv.publications, is_valid_data p = true ∧ 15 < p.length := by
  rcases mdLine_publications st line with heq | ⟨pub, hpub, heq⟩
  · rw [heq]; exact h
  · rw [heq]
    intro p hp
    rcases List.mem_append.1 hp with hp | hp
    · exact h p hp
    · rcases List.mem_singleton.1 hp with rfl
      exact hpub

/-- C1, counterexample: under `## PUBLICATIONS`, the venue-only line
"- IEEE Transactions on Power Systems" is accepted by `parse_markdown_cv`
as a publication entry although it contains no digit at all (hence no year
token) and no author marker — only the placeholder and length checks run. -/
theorem C1_counterexample :
    (parse_markdown_cv "01 January 2026"
        "## PUBLICATIONS\n- IEEE Transactions on Power Systems").publications =
      ["IEEE Transactions on Power Systems"] ∧
    ("IEEE Transactions on Power Systems".toList.all (fun c => !c.isDigit)) = true := by
  refine ⟨by decide, by decide⟩

/-- C1, amended: every publication entry accepted by `parse_markdown_cv`
passed exactly the implemented acceptance test — it is a non-placeholder
string (`is_valid_data`) longer than 15 characters; no year-token or
author/venue-marker requirement is enforced, so venue-only or
"source: X" lines above that length are accepted. -/
theorem C1_publication_invariant (today markdown_text : String) :
    ∀ p ∈ (parse_markdown_cv today markdown_text).publications,
      is_valid_data p = true ∧ 15 < p.length := by
  unfold parse_markdown_cv
  generalize splitLines (removeFences markdown_text) = lines
  suffices h : ∀ (ls : List String) (st : MdState),
      (∀ p ∈ st.cv.publications, is_valid_data p = true ∧ 15 < p.length) →
      ∀ p ∈ (ls.foldl mdLine st).cv.publications, is_valid_data p = true ∧ 15 < p.length by
    exact h lines _ (by simp)
  intro ls
  induction ls with
  | nil => intro st hst; simpa using hst
  | cons l ls ih =>
    intro st hst
    simp only [List.foldl_cons]
    exact ih _ (mdLine_pubs_step st l hst)

/-- C1, witness: a concrete accepted entry satisfies the implemented
acceptance test. -/
theorem C1_publication_invariant_witness :
    "Source: Google Scholar page data" ∈
      (parse_markdown_cv "d" "## PUBLICATIONS\n- Source: Google Scholar page data").publications ∧
    (is_valid_data "Source: Google Scholar page data" = true ∧
      15 < ("Source: Google Scholar page data" : String).length) :=
  ⟨by decide,
    C1_publication_invariant "d" "## PUBLICATIONS\n- Source: Google Scholar page data"
      "Source: Google Scholar page data" (by decide)⟩

/-- C2, counterexample: the query "list all lecturers and compare them"
matches a roster-style list pattern and also matches the spec's
detailed/compare/verify pattern, yet `_detect_query_type` classifies it
SIMPLE_LIST, not COMPLEX — complex does not override simple. -/
theorem C2_counterexample :
    detect_query_type "list all lecturers and compare them" = QueryType.SIMPLE_LIST ∧
    specDetailedCompareVerify "list all lecturers and compare them" = true ∧
    QueryType.SIMPLE_LIST ≠ QueryType.COMPLEX := by
  refine ⟨by decide, by decide, by decide⟩

/-- C2, amended: `_detect_query_type` returns SIMPLE_LIST exactly when the
lowercased query matches one of the roster-style list patterns; no
detailed/compare/verify pattern is consulted, so such content never
overrides the SIMPLE_LIST answer. -/
theorem C2_simple_list_iff (query : String) :
    detect_query_type query = QueryType.SIMPLE_LIST ↔
      simple_list_patterns.any (fun p => reSearch p (pyLower query)) = true := by
  by_cases h : (simple_list_patterns.any fun p => reSearch p (pyLower query)) = true
  · simp [detect_query_type, h]
  · simp only [detect_query_type]
    rw [if_neg h]
    simp only [h, iff_false]
    split <;> simp_all

/-- C3, counterexample: the line "born in 1975" is retained by both
personal-information filters (`HybridRAG._filter_personal_info` requires
"born on" followed by a day number, `SimpleRAG._filter_personal_info`
requires the substring "born on"), contradicting the claim that it is
removed. -/
theorem C3_counterexample :
    filter_personal_info "born in 1975" = "born in 1975" ∧
    simple_filter_personal_info "born in 1975" = "born in 1975" ∧
    ("born in 1975" : String) ≠ "" := by
  refine ⟨by decide, by decide, by decide⟩

/-- C3, amended: the line-level filter removes a birthdate line of the
form the family patterns recognise ("born on" plus a day number, e.g.
"born on 15 March 1980") when no professional-role keyword is on the line,
and retains "Chairperson, born committee"; the line "born in 1975" matches
no family pattern and is also retained. -/
theorem C3_filter_behavior :
    filter_personal_info "born on 15 March 1980\nChairperson, born committee" =
      "Chairperson, born committee" ∧
    filter_personal_info "born in 1975" = "born in 1975" := by
  refine ⟨by decide, by decide⟩

/-- C4: the pronoun resolver is the identity whenever the history is
empty, or no pronoun token occurs in the query, or no capitalized-name
candidate is extracted from the recent history — it never fabricates a
name; in particular queries without pronouns are returned unchanged. -/
theorem C4_resolver_noop (query : String) (history : List PyMsg)
    (h : history = [] ∨
      pronoun_tokens.any (fun p => (pySplitWS (pyLower query)).contains p) = false ∨
      extracted_names history = []) :
    resolve_pronouns_in_query query history = query := by
  rcases h with h1 | h2 | h3
  · subst h1
    simp [resolve_pronouns_in_query]
  · simp only [List.any_eq_false] at h2
    simp [resolve_pronouns_in_query]
    intro hne x hx hmem
    exact absurd hmem (by simpa using h2 x hx)
  · simp [resolve_pronouns_in_query, h3]

/-- C4, witness: a pronoun-free query with a non-empty history is returned
unchanged. -/
theorem C4_resolver_noop_witness :
    resolve_pronouns_in_query "what is quantum computing"
      [{ userText? := some "who is Jane Doe", assistantText? := some "Jane Doe teaches" }] =
      "what is quantum computing" :=
  C4_resolver_noop _ _ (Or.inr (Or.inl (by decide)))

/-- The counting loop of `_safety_check` agrees with the declarative
spec-side dedup whenever the count table agrees with the occurrence counts
of the already-processed stripped lines. -/
theorem safetyDedup_eq_spec (lines : List String) :
    ∀ (cnt : String → Nat) (prevs : List String),
      (∀ c, c ≠ "" → cnt c = prevs.countP (fun x => x == c)) →
      safetyDedupAux lines cnt = specDedupAux lines prevs := by
  induction lines with
  | nil => intro cnt prevs _; rfl
  | cons l ls ih =>
    intro cnt prevs h
    simp only [safetyDedupAux, specDedupAux]
    by_cases hcl : pyStrip l = ""
    · rw [if_neg (by simp [hcl]), if_neg (by simp [hcl])]
      apply ih
      intro c hc
      rw [h c hc, List.countP_cons]
      have hb : (pyStrip l == c) = false := by
        simp [hcl]
        exact fun hh => hc hh.symm
      simp [hb]
    · have hcnt := h (pyStrip l) hcl
      have hupd : ∀ c, c ≠ "" →
          (if c = pyStrip l then cnt (pyStrip l) + 1 else cnt c) =
            (pyStrip l :: prevs).countP (fun x => x == c) := by
        intro c hc
        rw [List.countP_cons]
        by_cases hec : c = pyStrip l
        · subst hec
          simp [hcnt]
        · have hb : (pyStrip l == c) = false := by
            simp
            exact fun hh => hec hh.symm
          simp [hec, h c hc, hb]
      by_cases hlt : prevs.countP (fun x => x == pyStrip l) < 2
      · rw [if_pos hcl, if_pos (by omega : cnt (pyStrip l) + 1 ≤ 2), if_pos ⟨hcl, hlt⟩]
        exact congrArg (l :: ·) (ih _ _ hupd)
      · rw [if_pos hcl, if_neg (by omega : ¬cnt (pyStrip l) + 1 ≤ 2),
          if_neg (by exact fun hand => hlt hand.2)]
        exact ih _ _ hupd

/-- C5, counterexample: on "x\n\nx\nx" the dedup of `_safety_check` drops
the blank line even though it occurs only once, so the output is "x\nx"
rather than the "x\n\nx" the claim requires (blank kept, third "x"
dropped). -/
theorem C5_counterexample :
    safety_check "x\n\nx\nx" = "x\nx" ∧ ("x\nx" : String) ≠ "x\n\nx" := by
  refine ⟨by decide, by decide⟩

/-- C5, amended: for outputs within the 8000-char ceiling, the dedup of
`_safety_check` keeps exactly the lines whose stripped text is non-empty
and has occurred at most twice so far (occurrences counted by stripped
text over all earlier lines); kept lines pass through unmodified in their
original order, whitespace-only lines are dropped. -/
theorem C5_dedup_characterization (s : String) (h : s.length ≤ 8000) :
    safety_check s = joinLines (dedup_spec (splitLines s)) := by
  unfold safety_check
  rw [if_neg (by omega)]
  simp only []
  unfold dedup_spec
  rw [safetyDedup_eq_spec (splitLines s) (fun _ => 0) [] (by intro c _; simp)]

/-- C5, witness: the characterization evaluated on a small concrete text. -/
theorem C5_dedup_characterization_witness :
    ("b\nb\na\nb\nb" : String).length ≤ 8000 ∧
    safety_check "b\nb\na\nb\nb" = joinLines (dedup_spec (splitLines "b\nb\na\nb\nb")) :=
  ⟨by decide, C5_dedup_characterization "b\nb\na\nb\nb" (by decide)⟩

/-- C6, counterexample: when every attempt fails with a permanent
not-found (`raise_for_status` raises `HTTPError`, a `RequestException`),
the scraper performs all 3 attempts with backoff sleeps of 3 and 6
seconds — it does not short-circuit without retry. -/
theorem C6_counterexample :
    (scrape_ui_staff_page (fun _ => FetchOutcome.httpNotFound)).attempts = 3 ∧
    (scrape_ui_staff_page (fun _ => FetchOutcome.httpNotFound)).sleeps = [3, 6] ∧
    (scrape_ui_staff_page (fun _ => FetchOutcome.httpNotFound)).attempts ≠ 1 := by
  refine ⟨by decide, by decide, by decide⟩

/-- C6, amended: the fetcher performs at most 3 attempts; each recoverable
failure sleeps attempt×5 s for a timeout and attempt×3 s for any
`RequestException` — including a permanent not-found, which is retried
like a transient failure; only a non-requests unexpected exception
short-circuits on the first attempt without any sleep. -/
theorem C6_retry_policy (outcome : Nat → FetchOutcome) :
    (scrape_ui_staff_page outcome).attempts ≤ 3 ∧
    1 ≤ (scrape_ui_staff_page outcome).attempts ∧
    (scrape_ui_staff_page outcome).sleeps =
      (List.range' 1 ((scrape_ui_staff_page outcome).attempts - 1)).map
        (fun i => i * (if outcome i = FetchOutcome.timeout then 5 else 3)) ∧
    (outcome 1 = FetchOutcome.otherError →
      scrape_ui_staff_page outcome =
        { attempts := 1, sleeps := [], result := ScrapeResult.otherErrMsg }) := by
  rcases h1 : outcome 1 <;> rcases h2 : outcome 2 <;> rcases h3 : outcome 3 <;>
    simp [scrape_ui_staff_page, scrapeLoop, max_retries, h1, h2, h3, List.range']

/-- C6, witness: a run whose first attempt raises a non-requests exception
stops after exactly one attempt with no sleeps. -/
theorem C6_retry_policy_witness :
    scrape_ui_staff_page (fun _ => FetchOutcome.otherError) =
      { attempts := 1, sleeps := [], result := ScrapeResult.otherErrMsg } :=
  (C6_retry_policy (fun _ => FetchOutcome.otherError)).2.2.2 rfl

theorem mem_ite_nil_right (c : Prop) [Decidable c] (L : List Block) (x : Block) :
    x ∈ (if c then L else []) ↔ c ∧ x ∈ L := by
  split <;> simp [*]

theorem sectionTitle_not_mem_numberedBodies (t : String) :
    ∀ (i : Nat) (l : List String), Block.sectionTitle t ∉ numberedBodies i l := by
  intro i l
  induction l generalizing i with
  | nil => simp [numberedBodies]
  | cons p ps ih => simp [numberedBodies, ih]

theorem morePubs_not_mem_numberedBodies (n : Nat) :
    ∀ (i : Nat) (l : List String), Block.morePubs n ∉ numberedBodies i l := by
  intro i l
  induction l generalizing i with
  | nil => simp [numberedBodies]
  | cons p ps ih => simp [numberedBodies, ih]

theorem sectionTitle_not_mem_take_body (t : String) (k : Nat) (l : List String) :
    Block.sectionTitle t ∉ List.take k (List.map (fun s => Block.body ("• " ++ htmlEscape s)) l) := by
  intro h
  have hm := List.mem_of_mem_take h
  simp at hm

theorem morePubs_not_mem_take_body (n : Nat) (k : Nat) (l : List String) :
    Block.morePubs n ∉ List.take k (List.map (fun s => Block.body ("• " ++ htmlEscape s)) l) := by
  intro h
  have hm := List.mem_of_mem_take h
  simp at hm

/-- A record with six positions and nothing else, used to refute the
per-section trailer claim. -/
def cvSixPositions : CVData :=
  { positions := ["Pos one", "Pos two", "Pos three", "Pos four", "Pos five", "Pos six"],
    generated_date := "01 January 2026" }

/-- C7, counterexample: a record whose positions list exceeds the
displayed cap of 5 is rendered without any "…and N more" trailer — only
the publications section ever gets one. -/
theorem C7_counterexample :
    cvSixPositions.positions.length > 5 ∧
    (buildStory cvSixPositions).countP isMoreTrailer = 0 := by
  refine ⟨by decide, by decide⟩

/-- C7, amended: in the rendered story, an "…and N more" trailer exists
iff the publications list exceeds its cap of 10 (the positions, research
and education sections are silently truncated at 5, 8 and 5); each of the
four section headings appears iff its backing list is non-empty; and the
closing note appears iff the total populated-item count is below 3. -/
theorem C7_render_layout (cv : CVData) :
    ((∃ n, Block.morePubs n ∈ buildStory cv) ↔ 10 < cv.publications.length) ∧
    (Block.sectionTitle "CURRENT POSITIONS" ∈ buildStory cv ↔ cv.positions ≠ []) ∧
    (Block.sectionTitle "RESEARCH INTERESTS" ∈ buildStory cv ↔ cv.research_areas ≠ []) ∧
    (Block.sectionTitle "EDUCATION" ∈ buildStory cv ↔ cv.education ≠ []) ∧
    (Block.sectionTitle "SELECTED PUBLICATIONS" ∈ buildStory cv ↔ cv.publications ≠ []) ∧
    (Block.sectionTitle "NOTE" ∈ buildStory cv ↔ totalItems cv < 3) := by
  refine ⟨?_, ?_, ?_, ?_, ?_, ?_⟩
  · constructor
    · rintro ⟨n, hn⟩
      simp [buildStory, mem_ite_nil_right, morePubs_not_mem_numberedBodies,
        morePubs_not_mem_take_body] at hn
      exact hn.2.1
    · intro h
      refine ⟨cv.publications.length - 10, ?_⟩
      have hne : cv.publications ≠ [] := by
        intro hh
        rw [hh] at h
        simp at h
      simp [buildStory, mem_ite_nil_right, morePubs_not_mem_numberedBodies,
        morePubs_not_mem_take_body, hne, h]
  · simp [buildStory, mem_ite_nil_right, sectionTitle_not_mem_numberedBodies,
      sectionTitle_not_mem_take_body]
  · simp [buildStory, mem_ite_nil_right, sectionTitle_not_mem_numberedBodies,
      sectionTitle_not_mem_take_body]
  · simp [buildStory, mem_ite_nil_right, sectionTitle_not_mem_numberedBodies,
      sectionTitle_not_mem_take_body]
  · simp [buildStory, mem_ite_nil_right, sectionTitle_not_mem_numberedBodies,
      sectionTitle_not_mem_take_body]
  · simp [buildStory, mem_ite_nil_right, sectionTitle_not_mem_numberedBodies,
      sectionTitle_not_mem_take_body]

/-- Updating a 10-truncated history with one more turn equals truncating
the full history extended by that turn. -/
theorem takeLast_store_step (l : List Turn) (t : Turn) :
    (if (takeLast l 10 ++ [t]).length > 10 then takeLast (takeLast l 10 ++ [t]) 10
     else takeLast l 10 ++ [t]) = takeLast (l ++ [t]) 10 := by
  unfold takeLast
  by_cases hl : l.length ≤ 9
  · have h0 : l.length - 10 = 0 := by omega
    have h1 : (l ++ [t]).length - 10 = 0 := by
      simp only [List.length_append, List.length_singleton]
      omega
    rw [h0, h1, List.drop_zero, List.drop_zero, if_neg]
    simp only [List.length_append, List.length_singleton]
    omega
  · have hlen : (l.drop (l.length - 10)).length = 10 := by
      rw [List.length_drop]
      omega
    have hcond : (l.drop (l.length - 10) ++ [t]).length > 10 := by
      simp only [List.length_append, List.length_singleton, hlen]
      omega
    rw [if_pos hcond]
    have e1 : (l.drop (l.length - 10) ++ [t]).length - 10 = 1 := by
      simp only [List.length_append, List.length_singleton, hlen]
    rw [e1, List.drop_append_of_le_length (by omega), List.drop_drop]
    have e2 : (l ++ [t]).length - 10 = l.length - 9 := by
      simp only [List.length_append, List.length_singleton]
      omega
    rw [e2, List.drop_append_of_le_length (by omega)]
    congr 2
    omega

/-- One `store_conversation` call preserves the "session history is the
last 10 of everything stored" characterization. -/
theorem store_conversation_char (st : SessionStore) (msgs : String → List Turn)
    (h : ∀ s, st s = takeLast (msgs s) 10) (sid : String) (t : Turn) :
    ∀ s, store_conversation st sid t s =
      takeLast (if s = sid then msgs s ++ [t] else msgs s) 10 := by
  intro s
  unfold store_conversation
  by_cases hs : s = sid
  · rw [if_pos hs, if_pos hs, h sid, hs]
    simp only []
    exact takeLast_store_step (msgs sid) t
  · rw [if_neg hs, if_neg hs]
    exact h s

/-- Folding any sequence of stores keeps every session at the last 10 of
the turns addressed to it. -/
theorem applyStores_char (ops : List (String × Turn)) :
    ∀ (st : SessionStore) (msgs : String → List Turn),
      (∀ s, st s = takeLast (msgs s) 10) →
      ∀ s, applyStores ops st s = takeLast (msgs s ++ allTurnsFor s ops) 10 := by
  induction ops with
  | nil =>
    intro st msgs h s
    simp only [applyStores, List.foldl_nil, allTurnsFor, List.filter_nil, List.map_nil,
      List.append_nil]
    exact h s
  | cons op ops ih =>
    intro st msgs h s
    simp only [applyStores, List.foldl_cons]
    have hstep := store_conversation_char st msgs h op.1 op.2
    have hrec := ih (store_conversation st op.1 op.2)
      (fun s => if s = op.1 then msgs s ++ [op.2] else msgs s) hstep s
    simp only [applyStores] at hrec
    rw [hrec]
    by_cases hs : s = op.1
    · subst hs
      simp [allTurnsFor, List.append_assoc]
    · have hs' : ¬op.1 = s := fun hh => hs hh.symm
      simp [allTurnsFor, hs, hs']

/-- C8: starting from the empty store, after any sequence of
`store_conversation` calls each session holds exactly the most recent 10
turns addressed to it (oldest evicted first), and its length never
exceeds 10. -/
theorem C8_bounded_history (ops : List (String × Turn)) (sid : String) :
    applyStores ops emptyStore sid = takeLast (allTurnsFor sid ops) 10 ∧
    (applyStores ops emptyStore sid).length ≤ 10 := by
  have hchar := applyStores_char ops emptyStore (fun _ => []) (fun s => rfl) sid
  simp only [List.nil_append] at hchar
  refine ⟨hchar, ?_⟩
  rw [hchar]
  unfold takeLast
  rw [List.length_drop]
  omega

/-- C9: the uploaded-document search filters only by
`source_type = "user_pdf"`: a chunk uploaded under any session passes the
filter, and if it is stored it is among the candidates of every query —
`PDFSearchTool._run` takes no session identifier, so queries from a
different session can be served chunks of another session. -/
theorem C9_cross_session (store : List StoredDoc) (sessA text name : String) (page : Nat)
    (h : mkUserPdfDoc sessA text name page ∈ store) :
    pdfSearchFilter (mkUserPdfDoc sessA text name page) = true ∧
    mkUserPdfDoc sessA text name page ∈ pdfSearchCandidates store := by
  refine ⟨rfl, ?_⟩
  exact List.mem_filter.mpr ⟨h, rfl⟩

/-- C9, witness: a chunk uploaded under session "alice" is a candidate for
a query that carries no session restriction at all. -/
theorem C9_cross_session_witness :
    pdfSearchFilter (mkUserPdfDoc "alice" "chunk text" "cv.pdf" 1) = true ∧
    mkUserPdfDoc "alice" "chunk text" "cv.pdf" 1 ∈
      pdfSearchCandidates [mkUserPdfDoc "alice" "chunk text" "cv.pdf" 1] :=
  C9_cross_session [mkUserPdfDoc "alice" "chunk text" "cv.pdf" 1] "alice" "chunk text" "cv.pdf" 1
    (by simp)

/-- C10: every chat request that is not classified as chitchat reaches the
`run_simple_rag` call, which passes four positional arguments to a
three-parameter function, so the endpoint answers with the 500 error
payload no matter what the collaborators would return. -/
theorem C10_arity_error (chitchat : String → String) (rag : List PyVal → String)
    (message : String) (user_urls : List String) (history : List Turn) (session_id : String)
    (h : is_chitchat message = false) :
    handle_chat_query chitchat rag message user_urls history session_id =
      ChatOutcome.errorPayload := by
  simp [handle_chat_query, h, pyCall, run_simple_rag_required, run_simple_rag_total]

/-- C10, witness: the non-chitchat query "who is Jane Doe" yields the error
payload. -/
theorem C10_arity_error_witness :
    handle_chat_query (fun _ => "hi") (fun _ => "answer") "who is Jane Doe" [] [] "s1" =
      ChatOutcome.errorPayload :=
  C10_arity_error _ _ _ _ _ _ (by decide)

end CheckPlease
